/-
  Verification of the orchestration / output-contract logic of the
  Retail-Analytics-Copilot repository.

  The embedding models, from the source:
    - src/run_agent_hybrid.py : parse_format_hint, normalize_answer,
      is_valid_citation, sanitize_citations, truncate_explanation, the
      confidence computation, and the per-question driver loop in main.
    - src/agent/graph_hybrid.py : the LangGraph workflow (router_node,
      retrieval_node, sql_gen_node, sql_exec_node, synthesizer_node,
      repair_node, route_decision, sql_check) as a deterministic function
      parameterised over the external collaborators (LLM backend,
      retriever, sqlite executor), which the spec treats as oracles.
    - src/agent/tools/sqlite_tool.py : execute_sql over an abstract
      row-returning backend.

  Python dynamic values are modelled by the inductive type PyVal; machine
  floats are modelled as rationals; the Python standard-library calls
  ast.literal_eval and float(...) are modelled by executable parsers over
  the grammar fragment the program relies on (ASCII literals: numbers,
  quoted strings, lists, dicts, booleans, None).  A Python function that
  can fall off its end (returning the implicit None) is modelled with an
  Option result.
-/
import Mathlib

namespace RetailCopilot

/-! ## Python-like dynamic values -/

/-- Model of a dynamically typed Python value as it flows through the
agent: None, bool, int, float (as a rational), str, list, dict. -/
inductive PyVal where
  | none : PyVal
  | vBool : Bool → PyVal
  | vInt : Int → PyVal
  | vFloat : Rat → PyVal
  | vStr : String → PyVal
  | vList : List PyVal → PyVal
  | vDict : List (PyVal × PyVal) → PyVal

/-! ## Character / string utilities (ASCII fragment of the Python
string methods used by the source: lower, strip, startswith, in,
replace).  All are structural so that the kernel can evaluate them. -/

/-- Python whitespace characters stripped by str.strip and matched
by the regex class backslash-s (ASCII fragment). -/
def isPySpace (c : Char) : Bool :=
  c = ' ' || c = '\t' || c = '\n' || c = '\x0d' || c = '\x0b' || c = '\x0c'

/-- ASCII lower-casing of one character (model of str.lower on the
ASCII labels the agent manipulates). -/
def lowerChar (c : Char) : Char :=
  if 'A' ≤ c && c ≤ 'Z' then Char.ofNat (c.toNat + 32) else c

/-- Model of str.lower (ASCII fragment). -/
def lowerStr (s : String) : String := ⟨s.data.map lowerChar⟩

/-- Drop whitespace from both ends of a character list. -/
def trimChars (l : List Char) : List Char :=
  ((l.dropWhile isPySpace).reverse.dropWhile isPySpace).reverse

/-- Model of str.strip(). -/
def pyStrip (s : String) : String := ⟨trimChars s.data⟩

/-- Is p a prefix of l (on characters)? -/
def hasPrefixL : List Char → List Char → Bool
  | [], _ => true
  | _ :: _, [] => false
  | p :: ps, c :: cs => p = c && hasPrefixL ps cs

/-- Does l contain p as a contiguous substring (on characters)? -/
def hasSubL : List Char → List Char → Bool
  | [], p => p.isEmpty
  | c :: cs, p => hasPrefixL p (c :: cs) || hasSubL cs p

/-- Model of the Python substring test (pat in s). -/
def strContains (s pat : String) : Bool := hasSubL s.data pat.data

/-- Model of str.startswith. -/
def strStartsWith (s pat : String) : Bool := hasPrefixL pat.data s.data

/-- Model of str.endswith. -/
def strEndsWith (s pat : String) : Bool := hasPrefixL pat.data.reverse s.data.reverse

/-- One pass of str.replace on character lists, replacing every
occurrence of pat (non-empty) by rep; fuel = length of the input. -/
def replaceCharsF (pat rep : List Char) : Nat → List Char → List Char
  | 0, l => l
  | _ + 1, [] => []
  | fuel + 1, c :: cs =>
    if pat ≠ [] && hasPrefixL pat (c :: cs) then
      rep ++ replaceCharsF pat rep fuel (List.drop pat.length (c :: cs))
    else
      c :: replaceCharsF pat rep fuel cs

/-- Model of str.replace(pat, rep). -/
def strReplace (s pat rep : String) : String :=
  ⟨replaceCharsF pat.data rep.data s.data.length s.data⟩

/-! ## Models of the Python standard-library parsers used by the source

ast.literal_eval and float(str) are external stdlib calls; they are
modelled here by executable parsers for the grammar fragment the agent
relies on (decimal numbers, quoted strings, lists, dicts, booleans,
None).  Inputs outside this fragment are mapped to parse failure, which
the source treats identically to a raised ValueError. -/

def isDigitChar (c : Char) : Bool := '0' ≤ c && c ≤ '9'

def digitVal (c : Char) : Nat := c.toNat - '0'.toNat

/-- Read a maximal run of digits; fails when there is none. -/
def takeDigits : List Char → Option (Nat × Nat × List Char)
  | [] => Option.none
  | c :: cs =>
    if isDigitChar c then
      match takeDigits cs with
      | Option.none => some (digitVal c, 1, cs)
      | some (n, k, rest) => some (digitVal c * 10 ^ k + n, k + 1, rest)
    else Option.none

/-- Parse an optional sign, returning the multiplier and the rest. -/
def takeSign : List Char → Int × List Char
  | '-' :: cs => (-1, cs)
  | '+' :: cs => (1, cs)
  | l => (1, l)

/-- The pieces of an unsigned numeric literal: integer part, fractional
digits with their count, decimal exponent, and whether the surface form
was a float literal (had a point or an exponent). -/
structure NumLit where
  intPart : Nat
  fracPart : Nat
  fracDigits : Nat
  expo : Int
  isFloat : Bool
deriving DecidableEq

/-- Parse an optional exponent marker e or E with signed digits. -/
def takeExpOpt : List Char → Option (Int × List Char)
  | c :: cs =>
    if c = 'e' || c = 'E' then
      let (sg, cs2) := takeSign cs
      match takeDigits cs2 with
      | some (d, _, rest) => some (sg * (d : Int), rest)
      | Option.none => Option.none
    else Option.none
  | [] => Option.none

/-- Parse the body of an unsigned numeric literal: digits, optional
fractional part, optional exponent. -/
def takeNumber (l : List Char) : Option (NumLit × List Char) :=
  match takeDigits l with
  | some (ip, _, rest) =>
    match rest with
    | '.' :: rest2 =>
      match takeDigits rest2 with
      | some (fp, k, rest3) =>
        match takeExpOpt rest3 with
        | some (e, rest4) => some (⟨ip, fp, k, e, true⟩, rest4)
        | Option.none => some (⟨ip, fp, k, 0, true⟩, rest3)
      | Option.none =>
        match takeExpOpt rest2 with
        | some (e, rest3) => some (⟨ip, 0, 0, e, true⟩, rest3)
        | Option.none => some (⟨ip, 0, 0, 0, true⟩, rest2)
    | _ =>
      match takeExpOpt rest with
      | some (e, rest2) => some (⟨ip, 0, 0, e, true⟩, rest2)
      | Option.none => some (⟨ip, 0, 0, 0, false⟩, rest)
  | Option.none =>
    match l with
    | '.' :: rest =>
      match takeDigits rest with
      | some (fp, k, rest2) =>
        match takeExpOpt rest2 with
        | some (e, rest3) => some (⟨0, fp, k, e, true⟩, rest3)
        | Option.none => some (⟨0, fp, k, 0, true⟩, rest2)
      | Option.none => Option.none
    | _ => Option.none

/-- The rational value denoted by a signed numeric literal. -/
def numLitRat (sg : Int) (nl : NumLit) : Rat :=
  let m : Rat := (nl.intPart : Rat) + (nl.fracPart : Rat) / (10 : Rat) ^ nl.fracDigits
  let e := nl.expo
  (sg : Rat) * (if e ≥ 0 then m * (10 : Rat) ^ e.toNat else m / (10 : Rat) ^ (-e).toNat)

/-- Model of Python float(s) on a string: strip whitespace, optional
sign, decimal literal with optional fraction/exponent.  Inputs outside
this grammar (inf, nan, underscores, hex) are mapped to failure. -/
def pyFloat (s : String) : Option Rat :=
  let l := trimChars s.data
  let (sg, l2) := takeSign l
  match takeNumber l2 with
  | some (nl, rest) => if rest = [] then some (numLitRat sg nl) else Option.none
  | Option.none => Option.none

/-- Python int(float) truncates toward zero. -/
def truncRat (q : Rat) : Int := if q ≥ 0 then q.floor else -((-q).floor)

/-- Parse the escape-light body of a quoted string until the closing
quote; fuel bounds recursion. -/
def takeQuoted (quote : Char) : Nat → List Char → Option (List Char × List Char)
  | 0, _ => Option.none
  | _ + 1, [] => Option.none
  | fuel + 1, c :: cs =>
    if c = quote then some ([], cs)
    else if c = '\\' then
      match cs with
      | [] => Option.none
      | e :: cs2 =>
        let decoded :=
          if e = 'n' then '\n'
          else if e = 't' then '\t'
          else if e = '\\' then '\\'
          else e
        match takeQuoted quote fuel cs2 with
        | some (body, rest) => some (decoded :: body, rest)
        | Option.none => Option.none
    else
      match takeQuoted quote fuel cs with
      | some (body, rest) => some (c :: body, rest)
      | Option.none => Option.none

mutual

/-- Parse one Python literal value (model of the grammar fragment of
ast.literal_eval used by the agent); fuel bounds recursion. -/
def parseLit : Nat → List Char → Option (PyVal × List Char)
  | 0, _ => Option.none
  | fuel + 1, l =>
    let l := l.dropWhile isPySpace
    match l with
    | [] => Option.none
    | c :: cs =>
      if c = '[' then
        match parseItems fuel (']') cs with
        | some (vs, rest) => some (.vList vs, rest)
        | Option.none => Option.none
      else if c = Char.ofNat 123 then
        match parsePairs fuel cs with
        | some (kvs, rest) => some (.vDict kvs, rest)
        | Option.none => Option.none
      else if c = '\'' || c = '"' then
        match takeQuoted c (cs.length + 1) cs with
        | some (body, rest) => some (.vStr ⟨body⟩, rest)
        | Option.none => Option.none
      else if hasPrefixL "True".data l then some (.vBool true, l.drop 4)
      else if hasPrefixL "False".data l then some (.vBool false, l.drop 5)
      else if hasPrefixL "None".data l then some (.none, l.drop 4)
      else
        let (sg, l2) := takeSign l
        match takeNumber l2 with
        | some (nl, rest) =>
          if nl.isFloat then some (.vFloat (numLitRat sg nl), rest)
          else some (.vInt (sg * (nl.intPart : Int)), rest)
        | Option.none => Option.none

/-- Parse comma-separated literal items up to the closing bracket. -/
def parseItems : Nat → Char → List Char → Option (List PyVal × List Char)
  | 0, _, _ => Option.none
  | fuel + 1, close, l =>
    let l := l.dropWhile isPySpace
    match l with
    | [] => Option.none
    | c :: cs =>
      if c = close then some ([], cs)
      else
        match parseLit fuel l with
        | some (v, rest) =>
          let rest := rest.dropWhile isPySpace
          match rest with
          | ',' :: rest2 =>
            match parseItems fuel close rest2 with
            | some (vs, rest3) => some (v :: vs, rest3)
            | Option.none => Option.none
          | d :: rest2 =>
            if d = close then some ([v], rest2) else Option.none
          | [] => Option.none
        | Option.none => Option.none

/-- Parse comma-separated key : value pairs up to the closing brace. -/
def parsePairs : Nat → List Char → Option (List (PyVal × PyVal) × List Char)
  | 0, _ => Option.none
  | fuel + 1, l =>
    let l := l.dropWhile isPySpace
    match l with
    | [] => Option.none
    | c :: cs =>
      if c = Char.ofNat 125 then some ([], cs)
      else
        match parseLit fuel l with
        | some (k, rest) =>
          let rest := rest.dropWhile isPySpace
          match rest with
          | ':' :: rest2 =>
            match parseLit fuel rest2 with
            | some (v, rest3) =>
              let rest3 := rest3.dropWhile isPySpace
              match rest3 with
              | ',' :: rest4 =>
                match parsePairs fuel rest4 with
                | some (kvs, rest5) => some ((k, v) :: kvs, rest5)
                | Option.none => Option.none
              | d :: rest4 =>
                if d = Char.ofNat 125 then some ([(k, v)], rest4) else Option.none
              | [] => Option.none
            | Option.none => Option.none
          | _ => Option.none
        | Option.none => Option.none

end

/-- Model of ast.literal_eval on a whole string: one literal with
nothing but whitespace around it. -/
def pyLitEval (s : String) : Option PyVal :=
  match parseLit (s.data.length + 1) s.data with
  | some (v, rest) => if rest.dropWhile isPySpace = [] then some v else Option.none
  | Option.none => Option.none



/-! ## Output Normalizer (src/run_agent_hybrid.py, normalize_answer) -/

/-- The expected answer type resolved from a format hint. -/
inductive ExpType where
  | tInt | tFloat | tDict | tList | tStr
deriving DecidableEq

/-- Model of parse_format_hint (src/run_agent_hybrid.py lines 16-28):
strip, then literal match on int / float, brace-delimited for dict,
list prefix for list, string otherwise. -/
def parse_format_hint (format_hint : String) : ExpType :=
  let h := pyStrip format_hint
  if h = "int" then .tInt
  else if h = "float" then .tFloat
  else if strStartsWith h "\x7b" && strEndsWith h "\x7d" then .tDict
  else if strStartsWith h "list" then .tList
  else .tStr

/-- The default value substituted for each expected type. -/
def typeDefault : ExpType → PyVal
  | .tInt => .vInt 0
  | .tFloat => .vFloat 0
  | .tDict => .vDict []
  | .tList => .vList []
  | .tStr => .vStr ""

/-- The rejection test of normalize_answer line 58: the lower-cased
string contains "not applicable", or equals one of the fixed markers. -/
def isRejectionStr (s : String) : Bool :=
  strContains (lowerStr s) "not applicable" ||
    (lowerStr s = "na" || lowerStr s = "n/a" ||
      lowerStr s = "no answer" || lowerStr s = "none")

/-- Model of round(x, 2).  The claims never evaluate float rounding, so
the half-up rounding used here (CPython rounds half to even on binary
floats) is an unobserved simplification. -/
def round2 (q : Rat) : Rat := ((round (q * 100) : Int) : Rat) / 100

/-- Model of repr() on the PyVal fragment; fuel keeps the recursion
structural.  Exact float formatting is not modelled (no claim observes
it). -/
def pyReprF : Nat → PyVal → String
  | 0, _ => ""
  | fuel + 1, v =>
    match v with
    | .none => "None"
    | .vBool b => if b then "True" else "False"
    | .vInt n => toString n
    | .vFloat q => toString q.num ++ "/" ++ toString q.den
    | .vStr s => "'" ++ s ++ "'"
    | .vList xs =>
      "[" ++ String.intercalate ", " (xs.map (pyReprF fuel)) ++ "]"
    | .vDict kvs =>
      "\x7b" ++
        String.intercalate ", "
          (kvs.map (fun kv => pyReprF fuel kv.1 ++ ": " ++ pyReprF fuel kv.2)) ++
        "\x7d"

mutual

/-- Nesting depth of a PyVal, used as repr fuel. -/
def pyDepth : PyVal → Nat
  | .vList xs => pyDepthList xs + 1
  | .vDict kvs => pyDepthPairs kvs + 1
  | _ => 1

/-- Maximal nesting depth over a list of values. -/
def pyDepthList : List PyVal → Nat
  | [] => 0
  | v :: vs => max (pyDepth v) (pyDepthList vs)

/-- Maximal nesting depth over key-value pairs. -/
def pyDepthPairs : List (PyVal × PyVal) → Nat
  | [] => 0
  | kv :: kvs => max (max (pyDepth kv.1) (pyDepth kv.2)) (pyDepthPairs kvs)

end

/-- Model of str(): identity on strings, repr-like elsewhere. -/
def pyStr (v : PyVal) : String :=
  match v with
  | .vStr s => s
  | v => pyReprF (pyDepth v) v

/-- Model of normalize_answer (src/run_agent_hybrid.py lines 30-116).

Returns an optional pair because the Python function falls off its end
(implicitly returning None instead of a pair) when the expected type is
int or float and the value after literal parsing is neither a number
nor a string; every other path returns some (value, is_valid). -/
def normalize_answer (final_answer : PyVal) (format_hint : String) :
    Option (PyVal × Bool) :=
  let expected := parse_format_hint format_hint
  match final_answer with
  | .none => some (typeDefault expected, false)
  | fa0 =>
    if (match fa0 with | .vStr s => isRejectionStr s | _ => false) then
      some (typeDefault expected, false)
    else
      let fa := match fa0 with
        | .vStr s =>
          (match pyLitEval s with
           | some v => v
           | Option.none => .vStr s)
        | v => v
      match expected with
      | .tInt =>
        match fa with
        | .vBool b => some (.vInt (if b then 1 else 0), true)
        | .vInt n => some (.vInt n, true)
        | .vFloat q => some (.vInt (truncRat q), true)
        | .vStr s =>
          (match pyFloat s with
           | some q => some (.vInt (truncRat q), true)
           | Option.none => some (.vInt 0, false))
        | _ => Option.none
      | .tFloat =>
        match fa with
        | .vBool b => some (.vFloat (round2 (if b then 1 else 0)), true)
        | .vInt n => some (.vFloat (round2 (n : Rat)), true)
        | .vFloat q => some (.vFloat (round2 q), true)
        | .vStr s =>
          (match pyFloat s with
           | some q => some (.vFloat (round2 q), true)
           | Option.none => some (.vFloat 0, false))
        | _ => Option.none
      | .tDict =>
        match fa with
        | .vDict kvs => some (.vDict kvs, true)
        | .vStr s =>
          (match pyLitEval s with
           | some (.vDict kvs) => some (.vDict kvs, true)
           | _ => some (.vDict [], false))
        | _ => some (.vDict [], false)
      | .tList =>
        match fa with
        | .vList xs => some (.vList xs, true)
        | .vStr s =>
          (match pyLitEval s with
           | some (.vList xs) => some (.vList xs, true)
           | _ => some (.vList [], false))
        | _ => some (.vList [], false)
      | .tStr => some (.vStr (pyStr fa), true)

/-! ## Confidence Scorer (src/run_agent_hybrid.py lines 292-303) -/

/-- The three-tier confidence computation of main: 1.0 when no SQL
error and valid format; 0.5 when exactly one holds; 0.0 otherwise. -/
def confidence_score (has_sql_error is_valid : Bool) : Rat :=
  if !has_sql_error && is_valid then 1
  else if !has_sql_error || is_valid then 1 / 2
  else 0

/-! ## Classification Router (src/agent/graph_hybrid.py, route_decision) -/

/-- Model of route_decision (src/agent/graph_hybrid.py lines 114-120). -/
def route_decision (cls : String) : String :=
  if strContains cls "sql" || strContains cls "hybrid" then
    if strContains cls "hybrid" then "hybrid" else "sql"
  else "rag"

/-! ## Citation Sanitizer (src/run_agent_hybrid.py lines 118-162) -/

/-- A regex word character, ASCII fragment of backslash-w. -/
def wordChar (c : Char) : Bool := c.isAlpha || isDigitChar c || c = '_'

/-- Model of is_valid_citation: contains the token ::chunk, or matches
the bare identifier pattern with length below 50.  (The re.match
dollar-anchor tolerance for one trailing newline is unreachable here:
every caller strips the string first.) -/
def is_valid_citation (c_str : String) : Bool :=
  if strContains c_str "::chunk" then true
  else
    (match c_str.data with
     | [] => false
     | c :: cs => (c.isAlpha || c = '_') && cs.all wordChar) &&
      c_str.data.length < 50

/-- Case-insensitive (ASCII) prefix test, for the re.IGNORECASE flag. -/
def ciHasPrefix : List Char → List Char → Bool
  | [], _ => true
  | _ :: _, [] => false
  | p :: ps, c :: cs => lowerChar p = lowerChar c && ciHasPrefix ps cs

/-- The four identifier-introducing keywords of the extraction regex.
The fifth alternative DELETE-whitespace-FROM yields exactly the
captures the FROM alternative already yields (the inner FROM always
sits at a word boundary), so it needs no separate case. -/
def tableKeywords : List String := ["FROM", "JOIN", "INTO", "UPDATE"]

/-- Capture the word-character run at the head of the input (the
regex captured group), together with the optional closing quote: the
last consumed character and the remaining input are returned for the
scan to continue after the match. -/
def captureWord (l2 : List Char) : Option (String × Option Char × List Char) :=
  let cap := l2.takeWhile wordChar
  if cap = [] then Option.none
  else
    match l2.dropWhile wordChar with
    | c :: cs =>
      if c = '`' || c = '"' then some (⟨cap⟩, some c, cs)
      else some (⟨cap⟩, cap.getLast?, c :: cs)
    | [] => some (⟨cap⟩, cap.getLast?, [])

/-- Try to match one occurrence of the table-extraction regex at the
current position: word boundary, keyword (case-insensitive), at least
one whitespace, optional backquote or double quote, captured word
characters, optional closing quote. -/
def matchKeywordAt (prev : Option Char) (l : List Char) :
    Option (String × Option Char × List Char) :=
  let boundaryOk := match prev with
    | some p => !wordChar p
    | Option.none => true
  if !boundaryOk then Option.none
  else
    match tableKeywords.find? (fun kw => ciHasPrefix kw.data l) with
    | Option.none => Option.none
    | some kw =>
      let rest1 := l.drop kw.length
      if rest1.takeWhile isPySpace = [] then Option.none
      else
        let rest2 := rest1.dropWhile isPySpace
        captureWord
          (match rest2 with
           | c :: cs => if c = '`' || c = '"' then cs else c :: cs
           | [] => [])

/-- Scan the query text for all non-overlapping matches of the
extraction regex, left to right; fuel = input length. -/
def scanTablesF : Nat → Option Char → List Char → List String
  | 0, _, _ => []
  | _ + 1, _, [] => []
  | fuel + 1, prev, c :: cs =>
    match matchKeywordAt prev (c :: cs) with
    | some (cap, lastC, rest) => cap :: scanTablesF fuel lastC rest
    | Option.none => scanTablesF fuel (some c) cs

/-- Model of the re.findall table-name extraction of sanitize_citations
(src/run_agent_hybrid.py lines 144-148). -/
def extract_table_names (sql_query : String) : List String :=
  scanTablesF sql_query.data.length Option.none sql_query.data

/-- Lexicographic sort (model of Python sorted on strings). -/
def sortStrings (l : List String) : List String :=
  l.insertionSort (· ≤ ·)

/-- Append one stripped raw citation when it is valid and not already
present (the c_str-not-in-result test of lines 155 and 159). -/
def add_citation (acc : List String) (c_str : String) : List String :=
  if is_valid_citation c_str = true ∧ c_str ∉ acc then acc ++ [c_str] else acc

/-- Walk the raw citations value, appending each validated entry
(lines 150-160: a list of strings, a bare string, or anything else
which contributes nothing). -/
def add_raw_citations (acc : List String) (citations : PyVal) : List String :=
  match citations with
  | .vList cs =>
    cs.foldl (fun (a : List String) (c : PyVal) =>
      match c with
      | .vStr s => add_citation a (pyStrip s)
      | _ => a) acc
  | .vStr s => add_citation acc (pyStrip s)
  | _ => acc

/-- Model of sanitize_citations (src/run_agent_hybrid.py lines
134-162): extracted table names, then each raw citation stripped and
kept when valid and not already present, then set-deduplication and
sorting.  (extend(set(matches)) inserts the matches in an unspecified
set order; the final sorted set does not depend on that order, and the
membership tests are order-insensitive, so the matches are inserted
here in scan order.) -/
def sanitize_citations (citations : PyVal) (sql_query : String) : List String :=
  let tables := if sql_query ≠ "" then extract_table_names sql_query else []
  sortStrings (add_raw_citations tables citations).dedup

/-- The set of stripped raw citations that pass validation, in order
(a specification-side description of what add_raw_citations adds). -/
def valid_raw_citations : PyVal → List String
  | .vList cs =>
    cs.filterMap (fun c =>
      match c with
      | .vStr s =>
        if is_valid_citation (pyStrip s) = true then some (pyStrip s)
        else Option.none
      | _ => Option.none)
  | .vStr s =>
    if is_valid_citation (pyStrip s) = true then [pyStrip s] else []
  | _ => []

/-! ## Explanation truncation (src/run_agent_hybrid.py lines 164-180) -/

def isSentEnd (c : Char) : Bool := c = '.' || c = '!' || c = '?'

/-- Model of re.split on the lookbehind-punctuation-then-whitespace
pattern: cut after a sentence-ending character that is followed by
whitespace, dropping the whitespace run. -/
def splitSentencesF : Nat → List Char → List Char → List (List Char)
  | 0, acc, _ => [acc.reverse]
  | _ + 1, acc, [] => [acc.reverse]
  | fuel + 1, acc, c :: cs =>
    if isSentEnd c && (match cs with | d :: _ => isPySpace d | [] => false) then
      (c :: acc).reverse :: splitSentencesF fuel [] (cs.dropWhile isPySpace)
    else splitSentencesF fuel (c :: acc) cs

/-- The sentence-accumulation loop of truncate_explanation, stopping
at the first sentence that would overflow 250 characters. -/
def accumSentences : List (List Char) → List Char → List Char
  | [], res => res
  | sent :: rest, res =>
    if res.length + sent.length + 1 ≤ 250 then
      accumSentences rest (res ++ sent ++ [' '])
    else res

/-- Model of truncate_explanation. -/
def truncate_explanation (explanation : String) : String :=
  if explanation = "" then ""
  else
    let e := pyStrip explanation
    let sentences := splitSentencesF e.data.length [] e.data
    pyStrip ⟨accumSentences sentences []⟩


/-! ## Workflow state and collaborator oracles
(src/agent/graph_hybrid.py, src/agent/tools/sqlite_tool.py) -/

/-- A retrieved chunk match: id, text, relevance score. -/
structure Chunk where
  id : String
  text : String
  score : Rat

/-- Model of the AgentState TypedDict of graph_hybrid.py. -/
structure AgentState where
  question : String
  format_hint : String
  classification : String
  schema : String
  doc_context : List Chunk
  constraints : String
  sql_query : String
  sql_result : PyVal
  sql_error : Option String
  final_answer : PyVal
  explanation : String
  citations : PyVal
  repair_count : Nat

/-- What the synthesizer backend returns: the three named output
fields of the SynthesizeAnswer signature. -/
structure SynthOut where
  final_answer : PyVal
  explanation : String
  citations : PyVal

/-- A database row, as the keyed records pandas would return. -/
def RowT := List (String × PyVal)

/-- The external collaborators (text-generation backend, retriever,
sqlite), which the spec excludes from the core: a router label per
question, a SQL generator over (question, schema, constraints), a row
backend that either returns rows or raises, a synthesizer over the five
assembled inputs, a retriever, and the cached schema text. -/
structure Oracles where
  route : String → String
  gen : String → String → String → String
  execBackend : String → Except String (List RowT)
  synth : String → String → String → String → String → SynthOut
  retrieve : String → List Chunk
  dbSchema : String

/-- Model of execute_sql (src/agent/tools/sqlite_tool.py lines 33-44):
an exception maps to the "SQL Error: " message string, an empty frame
to the zero-rows message string, and rows to a list of record dicts. -/
def execute_sql (backend : String → Except String (List RowT)) (query : String) :
    PyVal :=
  match backend query with
  | .error e => .vStr ("SQL Error: " ++ e)
  | .ok [] => .vStr "Query executed successfully but returned 0 rows."
  | .ok rs =>
    .vList (rs.map (fun r => .vDict (r.map (fun kv => (.vStr kv.1, kv.2)))))

/-- Model of router_node: classification is the lower-cased, stripped
backend label; schema is the cached schema text. -/
def router_node (o : Oracles) (s : AgentState) : AgentState :=
  { s with classification := pyStrip (lowerStr (o.route s.question)),
           schema := o.dbSchema }

/-- Model of retrieval_node: store the matches and join them into the
constraints context string. -/
def retrieval_node (o : Oracles) (s : AgentState) : AgentState :=
  let results := o.retrieve s.question
  { s with doc_context := results,
           constraints :=
             String.intercalate "\n"
               (results.map (fun r => "[" ++ r.id ++ "] " ++ r.text)) }

/-- The exact inputs sql_gen_node hands to the generation backend
(src/agent/graph_hybrid.py lines 52-56). -/
def sql_gen_inputs (s : AgentState) : String × String × String :=
  (s.question, s.schema, s.constraints)

/-- Model of sql_gen_node: call the generator on (question, schema,
constraints), strip fenced-code markers, store the cleaned query. -/
def sql_gen_node (o : Oracles) (s : AgentState) : AgentState :=
  let raw := o.gen s.question s.schema s.constraints
  let clean := pyStrip (strReplace (strReplace raw "```sql" "") "```" "")
  { s with sql_query := clean }

/-- Model of sql_exec_node: a string result beginning with "SQL Error"
sets the error channel; anything else is a success with no error. -/
def sql_exec_node (o : Oracles) (s : AgentState) : AgentState :=
  let result := execute_sql o.execBackend s.sql_query
  match result with
  | .vStr r =>
    if strStartsWith r "SQL Error" then
      { s with sql_result := .none, sql_error := some r }
    else
      { s with sql_result := .vStr r, sql_error := Option.none }
  | v => { s with sql_result := v, sql_error := Option.none }

/-- Model of synthesizer_node: assemble the five inputs, call the
backend, then literal-parse a string-shaped citations field, falling
back to the one-element list holding the original string. -/
def synthesizer_node (o : Oracles) (s : AgentState) : AgentState :=
  let context_str := s.constraints
  let sql_res := pyStr s.sql_result
  let pred := o.synth s.question s.format_hint s.sql_query sql_res context_str
  let citations :=
    match pred.citations with
    | .vStr cs =>
      (match pyLitEval cs with
       | some v => v
       | Option.none => .vList [.vStr cs])
    | v => v
  { s with final_answer := pred.final_answer,
           explanation := pred.explanation,
           citations := citations }

/-- Model of repair_node: increment the repair counter. -/
def repair_node (s : AgentState) : AgentState :=
  { s with repair_count := s.repair_count + 1 }

/-- Model of the sql_check conditional (src/agent/graph_hybrid.py lines
122-125): retry when the error channel is truthy (set and non-empty)
and fewer than 2 repairs have happened. -/
def sql_check_retry (s : AgentState) : Bool :=
  (match s.sql_error with
   | some e => decide (e ≠ "")
   | Option.none => false) && decide (s.repair_count < 2)

/-- The generate-execute-repair cycle: sql_gen, sql_exec, then either
repair and loop or finalize.  Returns the resulting state and the
number of generate/execute attempts made.  Fuel 3 always suffices
because repair only fires while repair_count < 2. -/
def sqlPhase (o : Oracles) : Nat → AgentState → AgentState × Nat
  | 0, s => (s, 0)
  | fuel + 1, s =>
    let s1 := sql_exec_node o (sql_gen_node o s)
    if sql_check_retry s1 then
      let r := sqlPhase o fuel (repair_node s1)
      (r.1, r.2 + 1)
    else (s1, 1)

/-- Model of one app.invoke of the compiled graph: router, then the
conditional routing.  The sql route runs the generate-execute-repair
cycle then synthesis; hybrid prepends retrieval; every other label is
the rag route (retrieval then synthesis; the superseded static
retriever-to-sql_gen edge of line 138 is modelled as redefined by the
post_retrieval_route conditional of line 146, matching the comment in
the source).  Returns the final state and the attempt count. -/
def runGraph (o : Oracles) (s0 : AgentState) : AgentState × Nat :=
  let s1 := router_node o s0
  if route_decision s1.classification = "sql" then
    let r := sqlPhase o 3 s1
    (synthesizer_node o r.1, r.2)
  else if route_decision s1.classification = "hybrid" then
    let r := sqlPhase o 3 (retrieval_node o s1)
    (synthesizer_node o r.1, r.2)
  else
    (synthesizer_node o (retrieval_node o s1), 0)

/-! ## The per-question driver loop (src/run_agent_hybrid.py, main,
lines 207-316) -/

/-- The mutable locals of the per-question driver loop (lines
217-224). -/
structure DriverVars where
  final_answer : PyVal
  sql_query : String
  citations : List String
  explanation : String
  sql_error : Option String
  is_valid : Bool
  repair_count : Nat

/-- The initial driver locals (lines 217-224). -/
def initVars : DriverVars :=
  { final_answer := .none, sql_query := "", citations := [],
    explanation := "", sql_error := Option.none, is_valid := false,
    repair_count := 0 }

/-- The initial_state dict the driver passes to app.invoke on each pass
(lines 228-242): it re-feeds its running repair_count, sql_error and
sql_query and blanks the other fields. -/
def initState (question format_hint : String) (v : DriverVars) : AgentState :=
  { question := question, format_hint := format_hint,
    classification := "", schema := "", doc_context := [],
    constraints := "", sql_query := v.sql_query, sql_result := .none,
    sql_error := v.sql_error, final_answer := .none, explanation := "",
    citations := .vList [], repair_count := v.repair_count }

/-- The driver loop of main (lines 226-290), parameterised over the
invocation of the workflow: invoke returns the final state and the
generate/execute attempt count, or nothing when a collaborator raised.
normalize_answer returning no pair models the tuple-unpacking failure
at line 255, caught by the same except-block as a collaborator error
(the sql_query and sql_error locals are already updated by then, lines
249-250, while answer, validity, citations and explanation keep their
previous values).  Returns the final locals, the number of workflow
invocations, and the total attempt count.  Fuel 3 suffices from
repair_count 0 because every retry increments repair_count, which the
retry conditions bound by 2. -/
def driverLoop (invoke : AgentState → Option (AgentState × Nat))
    (question format_hint : String) : Nat → DriverVars → DriverVars × Nat × Nat
  | 0, v => (v, 0, 0)
  | fuel + 1, v =>
    match invoke (initState question format_hint v) with
    | Option.none =>
      if v.repair_count < 2 then
        let r := driverLoop invoke question format_hint fuel
          { v with repair_count := v.repair_count + 1 }
        (r.1, r.2.1 + 1, r.2.2)
      else (v, 1, 0)
    | some (fs, att) =>
      let v1 := { v with sql_query := pyStrip fs.sql_query,
                         sql_error := fs.sql_error }
      match normalize_answer fs.final_answer format_hint with
      | Option.none =>
        if v1.repair_count < 2 then
          let r := driverLoop invoke question format_hint fuel
            { v1 with repair_count := v1.repair_count + 1 }
          (r.1, r.2.1 + 1, r.2.2 + att)
        else (v1, 1, att)
      | some (fa, valid) =>
        let v2 := { v1 with
          final_answer := fa, is_valid := valid,
          citations := sanitize_citations fs.citations (pyStrip fs.sql_query),
          explanation := truncate_explanation fs.explanation }
        if v2.is_valid = true ∧ v2.sql_error = Option.none then (v2, 1, att)
        else if v2.repair_count < 2 ∧
            (v2.sql_error ≠ Option.none ∨ v2.is_valid = false) then
          let r := driverLoop invoke question format_hint fuel
            { v2 with repair_count := v2.repair_count + 1 }
          (r.1, r.2.1 + 1, r.2.2 + att)
        else (v2, 1, att)

/-- The Output Contract record (lines 306-313). -/
structure OutputRecord where
  id : String
  final_answer : PyVal
  sql : String
  confidence : Rat
  explanation : String
  citations : List String

/-- Process one question end to end (lines 207-316): run the driver
loop, then derive the confidence tier and build the output record.
Also returns the invocation and attempt counts. -/
def processQuestion (invoke : AgentState → Option (AgentState × Nat))
    (qid question format_hint : String) : OutputRecord × Nat × Nat :=
  let r := driverLoop invoke question format_hint 3 initVars
  let v := r.1
  ({ id := qid, final_answer := v.final_answer, sql := v.sql_query,
     confidence := confidence_score v.sql_error.isSome v.is_valid,
     explanation := v.explanation, citations := v.citations },
   r.2.1, r.2.2)

/-- The batch loop (lines 207-316 over all records): one output record
per input record, in order. -/
def runBatch (invoke : AgentState → Option (AgentState × Nat))
    (qs : List (String × String × String)) : List OutputRecord :=
  qs.map (fun q => (processQuestion invoke q.1 q.2.1 q.2.2).1)


/-! ## Claims

Each claim of the specification audit is settled by one theorem below;
helper oracles and lemmas are shared infrastructure. -/




/-- Claim C4: the confidence score is a total function of the pair
(has_execution_error, is_format_valid) taking exactly the values
(false,true) to 1.0, (false,false) to 0.5, (true,true) to 0.5,
(true,false) to 0.0, and no other value is ever emitted. -/
theorem c4_confidence_total_table :
    confidence_score false true = 1 ∧
    confidence_score false false = 1 / 2 ∧
    confidence_score true true = 1 / 2 ∧
    confidence_score true false = 0 ∧
    ∀ e v : Bool, confidence_score e v = 0 ∨ confidence_score e v = 1 / 2 ∨
      confidence_score e v = 1 := by
  refine ⟨rfl, rfl, rfl, rfl, ?_⟩
  intro e v
  cases e <;> cases v
  · exact Or.inr (Or.inl rfl)
  · exact Or.inr (Or.inr rfl)
  · exact Or.inl rfl
  · exact Or.inr (Or.inl rfl)

/-- Claim C6: for every classification label returned by the backend,
after lower-casing and trimming, a label containing "hybrid" routes to
hybrid; otherwise one containing "sql" routes to sql; otherwise the
route is rag — classification is total for any label string. -/
theorem c6_router_total (o : Oracles) (s : AgentState) :
    (router_node o s).classification = pyStrip (lowerStr (o.route s.question)) ∧
    ∀ cls : String,
      route_decision cls =
        (if strContains cls "hybrid" = true then "hybrid"
         else if strContains cls "sql" = true then "sql"
         else "rag") := by
  refine ⟨rfl, ?_⟩
  intro cls
  unfold route_decision
  cases h1 : strContains cls "hybrid" <;> cases h2 : strContains cls "sql" <;>
    simp [h1, h2]

/-- Claim C7: a query whose execution returns an empty result set is
classified as success: execute_sql returns the zero-rows message, the
execution node sets sql_error to None, and the repair transition does
not fire on that outcome. -/
theorem c7_zero_rows_is_success (o : Oracles) (s : AgentState)
    (h : o.execBackend s.sql_query = Except.ok []) :
    execute_sql o.execBackend s.sql_query =
      .vStr "Query executed successfully but returned 0 rows." ∧
    (sql_exec_node o s).sql_error = Option.none ∧
    sql_check_retry (sql_exec_node o s) = false := by
  have hres : execute_sql o.execBackend s.sql_query =
      .vStr "Query executed successfully but returned 0 rows." := by
    unfold execute_sql
    rw [h]
  refine ⟨hres, ?_, ?_⟩
  · unfold sql_exec_node
    rw [hres]
    simp [show strStartsWith "Query executed successfully but returned 0 rows." "SQL Error" = false from rfl]
  · unfold sql_check_retry sql_exec_node
    rw [hres]
    simp [show strStartsWith "Query executed successfully but returned 0 rows." "SQL Error" = false from rfl]

/-- Claim C8: the generation inputs are (question, schema, constraints)
only; a repair transition leaves them unchanged, and two states
differing only in sql_error produce the same generation call and the
same generated query. -/
theorem c8_generation_independent_of_error (o : Oracles) (s : AgentState)
    (e1 e2 : Option String) :
    sql_gen_inputs (repair_node s) = sql_gen_inputs s ∧
    sql_gen_inputs { s with sql_error := e1 } = sql_gen_inputs { s with sql_error := e2 } ∧
    (sql_gen_node o { s with sql_error := e1 }).sql_query =
      (sql_gen_node o { s with sql_error := e2 }).sql_query ∧
    (sql_gen_node o (repair_node s)).sql_query = (sql_gen_node o s).sql_query :=
  ⟨rfl, rfl, rfl, rfl⟩

/-- Claim C9: when the synthesizer returns its citations field as a
string that parses as a serialized list literal, the parsing step
recovers exactly that list; when the string does not parse, the result
is the one-element list holding the original string. -/
theorem c9_citations_roundtrip (o : Oracles) (s : AgentState) (cs : String)
    (hstr : (o.synth s.question s.format_hint s.sql_query (pyStr s.sql_result)
      s.constraints).citations = .vStr cs) :
    (∀ xs, pyLitEval cs = some (.vList xs) →
      (synthesizer_node o s).citations = .vList xs) ∧
    (pyLitEval cs = Option.none →
      (synthesizer_node o s).citations = .vList [.vStr cs]) := by
  constructor
  · intro xs hp
    simp [synthesizer_node, hstr, hp]
  · intro hp
    simp [synthesizer_node, hstr, hp]

def oC9 : Oracles :=
  { route := fun _ => "rag",
    gen := fun _ _ _ => "",
    execBackend := fun _ => .ok [],
    synth := fun _ _ _ _ _ =>
      { final_answer := .none, explanation := "",
        citations := .vStr "['Orders', 'Order Details']" },
    retrieve := fun _ => [],
    dbSchema := "" }

def sC9 : AgentState := initState "q" "int" initVars

/-- Claim C9 witness: the spec example, the serialized two-element list
of Orders and Order Details, is recovered exactly. -/
theorem c9_citations_roundtrip_witness :
    pyLitEval "['Orders', 'Order Details']" =
      some (.vList [.vStr "Orders", .vStr "Order Details"]) ∧
    (synthesizer_node oC9 sC9).citations =
      .vList [.vStr "Orders", .vStr "Order Details"] :=
  ⟨rfl, (c9_citations_roundtrip oC9 sC9 "['Orders', 'Order Details']" rfl).1
    [.vStr "Orders", .vStr "Order Details"] rfl⟩

def oC7 : Oracles :=
  { route := fun _ => "sql",
    gen := fun _ _ _ => "SELECT 1",
    execBackend := fun _ => .ok [],
    synth := fun _ _ _ _ _ =>
      { final_answer := .none, explanation := "", citations := .vList [] },
    retrieve := fun _ => [],
    dbSchema := "" }

/-- Claim C7 witness: a concrete backend returning zero rows yields
sql_error = None. -/
theorem c7_zero_rows_is_success_witness :
    oC7.execBackend (initState "q" "int" initVars).sql_query = Except.ok [] ∧
    (sql_exec_node oC7 (initState "q" "int" initVars)).sql_error = Option.none :=
  ⟨rfl, (c7_zero_rows_is_success oC7 (initState "q" "int" initVars) rfl).2.1⟩



/-- Claim C3 counterexample: the raw string answer "[1, 2]" with hint
int does not yield the claimed default pair (0, false): the Python
function falls off its end and returns no pair at all (None), because
the literal-parsed value is a list and neither branch of the int case
returns. -/
theorem c3_normalize_counterexample :
    normalize_answer (.vStr "[1, 2]") "int" = Option.none ∧
    normalize_answer (.vStr "[1, 2]") "int" ≠ some (.vInt 0, false) := by
  constructor
  · rfl
  · intro h
    rw [show normalize_answer (.vStr "[1, 2]") "int" = Option.none from rfl] at h
    exact Option.noConfusion h

/-- Claim C3 amended: with expected type int, int and float raw values
(and strings parsing to them, or parsing to a string that float-converts)
yield the integer cast with is_valid = true; strings that neither parse
to a number nor float-convert yield the default 0 with is_valid = false;
the rejection rule holds for every hint; but raw lists/dicts, and
strings parsing to a list, make normalize_answer return no pair at all
instead of the default. -/
theorem c3_normalize_int_and_rejection :
    (∀ hint s, isRejectionStr s = true →
      normalize_answer (.vStr s) hint =
        some (typeDefault (parse_format_hint hint), false)) ∧
    (∀ n : Int, normalize_answer (.vInt n) "int" = some (.vInt n, true)) ∧
    (∀ q : Rat, normalize_answer (.vFloat q) "int" = some (.vInt (truncRat q), true)) ∧
    (∀ s n, isRejectionStr s = false → pyLitEval s = some (.vInt n) →
      normalize_answer (.vStr s) "int" = some (.vInt n, true)) ∧
    (∀ s q, isRejectionStr s = false → pyLitEval s = some (.vFloat q) →
      normalize_answer (.vStr s) "int" = some (.vInt (truncRat q), true)) ∧
    (∀ s t q, isRejectionStr s = false → pyLitEval s = some (.vStr t) →
      pyFloat t = some q →
      normalize_answer (.vStr s) "int" = some (.vInt (truncRat q), true)) ∧
    (∀ s t, isRejectionStr s = false → pyLitEval s = some (.vStr t) →
      pyFloat t = Option.none →
      normalize_answer (.vStr s) "int" = some (.vInt 0, false)) ∧
    (∀ s, isRejectionStr s = false → pyLitEval s = Option.none →
      pyFloat s = Option.none →
      normalize_answer (.vStr s) "int" = some (.vInt 0, false)) ∧
    (∀ s xs, isRejectionStr s = false → pyLitEval s = some (.vList xs) →
      normalize_answer (.vStr s) "int" = Option.none) ∧
    (∀ xs, normalize_answer (.vList xs) "int" = Option.none) ∧
    (∀ kvs, normalize_answer (.vDict kvs) "int" = Option.none) := by
  have hi : parse_format_hint "int" = ExpType.tInt := rfl
  refine ⟨?_, ?_, ?_, ?_, ?_, ?_, ?_, ?_, ?_, ?_, ?_⟩
  · intro hint s h
    simp [normalize_answer, h]
  · intro n
    simp [normalize_answer, hi]
  · intro q
    simp [normalize_answer, hi]
  · intro s n h hp
    simp [normalize_answer, h, hp, hi]
  · intro s q h hp
    simp [normalize_answer, h, hp, hi]
  · intro s t q h hp hf
    simp [normalize_answer, h, hp, hf, hi]
  · intro s t h hp hf
    simp [normalize_answer, h, hp, hf, hi]
  · intro s h hp hf
    simp [normalize_answer, h, hp, hf, hi]
  · intro s xs h hp
    simp [normalize_answer, h, hp, hi]
  · intro xs
    simp [normalize_answer, hi]
  · intro kvs
    simp [normalize_answer, hi]

/-- Claim C3 witness: concrete instances of each clause of the amended
claim, including the spec example raw "42" yielding (42, true). -/
theorem c3_normalize_int_and_rejection_witness :
    (isRejectionStr "n/a" = true ∧
      normalize_answer (.vStr "n/a") "int" = some (.vInt 0, false)) ∧
    (isRejectionStr "42" = false ∧ pyLitEval "42" = some (.vInt 42) ∧
      normalize_answer (.vStr "42") "int" = some (.vInt 42, true)) ∧
    (isRejectionStr "'x'" = false ∧ pyLitEval "'x'" = some (.vStr "x") ∧
      pyFloat "x" = Option.none ∧
      normalize_answer (.vStr "'x'") "int" = some (.vInt 0, false)) ∧
    (isRejectionStr "abc" = false ∧ pyLitEval "abc" = Option.none ∧
      pyFloat "abc" = Option.none ∧
      normalize_answer (.vStr "abc") "int" = some (.vInt 0, false)) ∧
    (isRejectionStr "[1, 2]" = false ∧
      pyLitEval "[1, 2]" = some (.vList [.vInt 1, .vInt 2]) ∧
      normalize_answer (.vStr "[1, 2]") "int" = Option.none) := by
  refine ⟨⟨rfl, ?_⟩, ⟨rfl, rfl, ?_⟩, ⟨rfl, rfl, rfl, ?_⟩, ⟨rfl, rfl, rfl, ?_⟩,
    ⟨rfl, rfl, ?_⟩⟩
  · have h := c3_normalize_int_and_rejection.1 "int" "n/a" rfl
    simpa using h
  · exact c3_normalize_int_and_rejection.2.2.2.1 "42" 42 rfl rfl
  · exact c3_normalize_int_and_rejection.2.2.2.2.2.2.1 "'x'" "x" rfl rfl rfl
  · exact c3_normalize_int_and_rejection.2.2.2.2.2.2.2.1 "abc" rfl rfl rfl
  · exact c3_normalize_int_and_rejection.2.2.2.2.2.2.2.2.1 "[1, 2]"
      [.vInt 1, .vInt 2] rfl rfl


lemma mem_add_citation (acc : List String) (t x : String) :
    x ∈ add_citation acc t ↔
      x ∈ acc ∨ (is_valid_citation t = true ∧ x = t) := by
  unfold add_citation
  by_cases hv : is_valid_citation t = true
  · by_cases hmem : t ∈ acc
    · rw [if_neg (fun hh => hh.2 hmem)]
      constructor
      · tauto
      · rintro (hx | ⟨_, rfl⟩)
        · exact hx
        · exact hmem
    · rw [if_pos ⟨hv, hmem⟩]
      simp only [List.mem_append, List.mem_singleton]
      tauto
  · rw [if_neg (fun hh => hv hh.1)]
    constructor
    · tauto
    · rintro (hx | ⟨hvv, _⟩)
      · exact hx
      · exact absurd hvv hv

lemma captureWord_cap (l2 : List Char) (cap : String) (lastC : Option Char)
    (rest : List Char) (hm : captureWord l2 = some (cap, lastC, rest)) :
    cap.data = l2.takeWhile wordChar ∧ l2.takeWhile wordChar ≠ [] := by
  unfold captureWord at hm
  by_cases hc : l2.takeWhile wordChar = []
  · rw [if_pos hc] at hm
    exact Option.noConfusion hm
  · rw [if_neg hc] at hm
    split at hm
    · rename_i c cs hdrop
      split at hm
      · simp only [Option.some_inj, Prod.mk.injEq] at hm
        obtain ⟨h1, -⟩ := hm
        exact ⟨by rw [← h1], hc⟩
      · simp only [Option.some_inj, Prod.mk.injEq] at hm
        obtain ⟨h1, -⟩ := hm
        exact ⟨by rw [← h1], hc⟩
    · simp only [Option.some_inj, Prod.mk.injEq] at hm
      obtain ⟨h1, -⟩ := hm
      exact ⟨by rw [← h1], hc⟩

lemma captureWord_shape (l2 : List Char) (cap : String) (lastC : Option Char)
    (rest : List Char) (hm : captureWord l2 = some (cap, lastC, rest)) :
    cap.data ≠ [] ∧ cap.data.all wordChar = true := by
  obtain ⟨h1, h2⟩ := captureWord_cap l2 cap lastC rest hm
  refine ⟨by rw [h1]; exact h2, ?_⟩
  rw [h1, List.all_eq_true]
  intro a ha
  exact List.mem_takeWhile_imp ha

lemma matchKeywordAt_shape (prev : Option Char) (l : List Char) (cap : String)
    (lastC : Option Char) (rest : List Char)
    (hm : matchKeywordAt prev l = some (cap, lastC, rest)) :
    cap.data ≠ [] ∧ cap.data.all wordChar = true := by
  simp only [matchKeywordAt] at hm
  split at hm
  · exact Option.noConfusion hm
  · split at hm
    · exact Option.noConfusion hm
    · split at hm
      · exact Option.noConfusion hm
      · exact captureWord_shape _ _ _ _ hm



lemma mem_foldl_add (cs : List PyVal) :
    ∀ acc x, x ∈ cs.foldl (fun (a : List String) (c : PyVal) =>
        match c with
        | .vStr s => add_citation a (pyStrip s)
        | _ => a) acc ↔
      x ∈ acc ∨ x ∈ valid_raw_citations (.vList cs) := by
  induction cs with
  | nil => intro acc x; simp [valid_raw_citations]
  | cons c cs ih =>
    intro acc x
    have hrest : ∀ y : String, y ∈ valid_raw_citations (.vList (c :: cs)) ↔
        ((match c with
          | PyVal.vStr s => is_valid_citation (pyStrip s) = true ∧ y = pyStrip s
          | _ => False) ∨ y ∈ valid_raw_citations (.vList cs)) := by
      intro y
      cases c with
      | vStr s =>
        simp only [valid_raw_citations, List.filterMap_cons]
        by_cases hv : is_valid_citation (pyStrip s) = true
        · simp [hv]
        · simp [hv]
      | none => simp [valid_raw_citations, List.filterMap_cons]
      | vBool b => simp [valid_raw_citations, List.filterMap_cons]
      | vInt n => simp [valid_raw_citations, List.filterMap_cons]
      | vFloat q => simp [valid_raw_citations, List.filterMap_cons]
      | vList l => simp [valid_raw_citations, List.filterMap_cons]
      | vDict d => simp [valid_raw_citations, List.filterMap_cons]
    rw [hrest]
    cases c with
    | vStr s =>
      simp only [List.foldl_cons]
      rw [ih, mem_add_citation]
      tauto
    | none => simp only [List.foldl_cons]; rw [ih]; tauto
    | vBool b => simp only [List.foldl_cons]; rw [ih]; tauto
    | vInt n => simp only [List.foldl_cons]; rw [ih]; tauto
    | vFloat q => simp only [List.foldl_cons]; rw [ih]; tauto
    | vList l => simp only [List.foldl_cons]; rw [ih]; tauto
    | vDict d => simp only [List.foldl_cons]; rw [ih]; tauto

lemma mem_add_raw_citations (citations : PyVal) (acc : List String) (x : String) :
    x ∈ add_raw_citations acc citations ↔
      x ∈ acc ∨ x ∈ valid_raw_citations citations := by
  cases citations with
  | vStr s =>
    simp only [add_raw_citations, valid_raw_citations]
    rw [mem_add_citation]
    by_cases hv : is_valid_citation (pyStrip s) = true
    · simp [hv]
    · simp [hv]
  | vList cs => exact mem_foldl_add cs acc x
  | none => simp [add_raw_citations, valid_raw_citations]
  | vBool b => simp [add_raw_citations, valid_raw_citations]
  | vInt n => simp [add_raw_citations, valid_raw_citations]
  | vFloat q => simp [add_raw_citations, valid_raw_citations]
  | vDict d => simp [add_raw_citations, valid_raw_citations]

lemma mem_valid_raw_valid (citations : PyVal) (x : String)
    (hx : x ∈ valid_raw_citations citations) : is_valid_citation x = true := by
  cases citations with
  | vStr s =>
    simp only [valid_raw_citations] at hx
    by_cases hv : is_valid_citation (pyStrip s) = true
    · simp only [hv, if_true, List.mem_singleton] at hx
      exact hx ▸ hv
    · simp [hv] at hx
  | vList cs =>
    simp only [valid_raw_citations, List.mem_filterMap] at hx
    obtain ⟨c, -, hc⟩ := hx
    cases c with
    | vStr s =>
      by_cases hv : is_valid_citation (pyStrip s) = true
      · simp only [hv, if_true, Option.some_inj] at hc
        exact hc ▸ hv
      · simp [hv] at hc
    | none => simp at hc
    | vBool b => simp at hc
    | vInt n => simp at hc
    | vFloat q => simp at hc
    | vList l => simp at hc
    | vDict d => simp at hc
  | none => simp [valid_raw_citations] at hx
  | vBool b => simp [valid_raw_citations] at hx
  | vInt n => simp [valid_raw_citations] at hx
  | vFloat q => simp [valid_raw_citations] at hx
  | vDict d => simp [valid_raw_citations] at hx

/-- Every capture of the extraction scanner is a non-empty run of word
characters. -/
lemma scanTablesF_word (fuel : Nat) :
    ∀ prev l x, x ∈ scanTablesF fuel prev l →
      x.data ≠ [] ∧ x.data.all wordChar = true := by
  induction fuel with
  | zero => intro prev l x hx; simp [scanTablesF] at hx
  | succ fuel ih =>
    intro prev l x hx
    cases l with
    | nil => simp [scanTablesF] at hx
    | cons c cs =>
      simp only [scanTablesF] at hx
      rcases hm : matchKeywordAt prev (c :: cs) with _ | ⟨cap, lastC2, rest2⟩
      · rw [hm] at hx
        exact ih (some c) cs x hx
      · rw [hm] at hx
        simp only [List.mem_cons] at hx
        rcases hx with hx | hx
        · exact hx ▸ matchKeywordAt_shape prev (c :: cs) cap lastC2 rest2 hm
        · exact ih lastC2 rest2 x hx

lemma extract_table_names_empty : extract_table_names "" = [] := rfl

/-- Claim C5 counterexample: on the query text SELECT * FROM 9x the
sanitizer output contains the extracted token "9x", which neither
contains ::chunk nor matches the bare-identifier pattern (it starts
with a digit), refuting the claimed shape of every output element. -/
theorem c5_sanitize_counterexample :
    sanitize_citations (.vList []) "SELECT * FROM 9x" = ["9x"] ∧
    strContains "9x" "::chunk" = false ∧
    is_valid_citation "9x" = false :=
  ⟨rfl, rfl, rfl⟩

/-- Claim C5 amended: the sanitizer output is lexicographically sorted
and duplicate-free and equals the union of the table tokens extracted
from the query text and the validated raw citations; every element
either is an extracted word-character token (which may start with a
digit or exceed the identifier length bound) or passes the ::chunk /
bare-identifier validation. -/
theorem c5_sanitize_sorted_dedup_union (citations : PyVal) (sql_query : String) :
    List.Sorted (· ≤ ·) (sanitize_citations citations sql_query) ∧
    (sanitize_citations citations sql_query).Nodup ∧
    (∀ x, x ∈ sanitize_citations citations sql_query ↔
      x ∈ extract_table_names sql_query ∨ x ∈ valid_raw_citations citations) ∧
    (∀ x ∈ sanitize_citations citations sql_query,
      x ∈ extract_table_names sql_query ∨ is_valid_citation x = true) ∧
    (∀ x ∈ extract_table_names sql_query,
      x.data ≠ [] ∧ x.data.all wordChar = true) := by
  have hmem : ∀ x, x ∈ sanitize_citations citations sql_query ↔
      x ∈ extract_table_names sql_query ∨ x ∈ valid_raw_citations citations := by
    intro x
    unfold sanitize_citations sortStrings
    rw [(List.perm_insertionSort (· ≤ ·) _).mem_iff, List.mem_dedup,
      mem_add_raw_citations]
    by_cases hq : sql_query = ""
    · subst hq
      simp [extract_table_names_empty]
    · simp [hq]
  refine ⟨?_, ?_, hmem, ?_, ?_⟩
  · exact List.sorted_insertionSort _ _
  · exact ((List.perm_insertionSort (· ≤ ·) _).nodup_iff).mpr (List.nodup_dedup _)
  · intro x hx
    rcases (hmem x).mp hx with h | h
    · exact Or.inl h
    · exact Or.inr (mem_valid_raw_valid citations x h)
  · intro x hx
    exact scanTablesF_word _ _ _ x hx


lemma strData_append (s t : String) : (s ++ t).data = s.data ++ t.data := by
  cases s
  cases t
  rfl

lemma hasPrefixL_append (p r : List Char) : hasPrefixL p (p ++ r) = true := by
  induction p with
  | nil => rfl
  | cons c cs ih => simp [hasPrefixL, ih]

lemma sqlError_startsWith (e : String) :
    strStartsWith ("SQL Error: " ++ e) "SQL Error" = true := by
  unfold strStartsWith
  rw [strData_append]
  rw [show "SQL Error: ".data = "SQL Error".data ++ [':', ' '] from rfl]
  rw [List.append_assoc]
  exact hasPrefixL_append _ _

lemma sqlError_ne_empty (e : String) : ("SQL Error: " ++ e) ≠ "" := by
  intro h
  have h2 := congrArg String.data h
  rw [strData_append] at h2
  simp at h2

lemma sql_gen_node_rc (o : Oracles) (s : AgentState) :
    (sql_gen_node o s).repair_count = s.repair_count := rfl

lemma sql_exec_node_rc (o : Oracles) (s : AgentState) :
    (sql_exec_node o s).repair_count = s.repair_count := by
  simp only [sql_exec_node]
  split
  · split <;> rfl
  · rfl

lemma sql_check_retry_eq (s : AgentState) :
    sql_check_retry s = ((match s.sql_error with
      | some e => decide (e ≠ "")
      | Option.none => false) && decide (s.repair_count < 2)) := rfl

lemma sql_check_retry_lt (s : AgentState) (h : sql_check_retry s = true) :
    s.repair_count < 2 := by
  rw [sql_check_retry_eq, Bool.and_eq_true] at h
  exact of_decide_eq_true h.2

lemma sql_exec_node_error (o : Oracles)
    (herr : ∀ q, ∃ e, o.execBackend q = Except.error e) (s : AgentState) :
    ∃ e, (sql_exec_node o s).sql_error = some ("SQL Error: " ++ e) := by
  obtain ⟨e, he⟩ := herr s.sql_query
  refine ⟨e, ?_⟩
  unfold sql_exec_node execute_sql
  rw [he]
  simp only [sqlError_startsWith, if_true]

lemma repair_node_rc (s : AgentState) :
    (repair_node s).repair_count = s.repair_count + 1 := rfl

lemma sqlPhase_repair_le (o : Oracles) :
    ∀ fuel s, s.repair_count ≤ 2 → (sqlPhase o fuel s).1.repair_count ≤ 2 := by
  intro fuel
  induction fuel with
  | zero => intro s h; exact h
  | succ fuel ih =>
    intro s h
    simp only [sqlPhase]
    by_cases hc : sql_check_retry (sql_exec_node o (sql_gen_node o s)) = true
    · rw [if_pos hc]
      have hlt := sql_check_retry_lt _ hc
      rw [sql_exec_node_rc, sql_gen_node_rc] at hlt
      exact ih _ (by rw [repair_node_rc, sql_exec_node_rc, sql_gen_node_rc]; omega)
    · rw [if_neg hc]
      rw [sql_exec_node_rc, sql_gen_node_rc]
      exact h

lemma sqlPhase_attempts_le (o : Oracles) :
    ∀ fuel s, s.repair_count ≤ 2 → (sqlPhase o fuel s).2 + s.repair_count ≤ 3 := by
  intro fuel
  induction fuel with
  | zero => intro s h; simpa [sqlPhase] using by omega
  | succ fuel ih =>
    intro s h
    simp only [sqlPhase]
    by_cases hc : sql_check_retry (sql_exec_node o (sql_gen_node o s)) = true
    · rw [if_pos hc]
      have hlt := sql_check_retry_lt _ hc
      rw [sql_exec_node_rc, sql_gen_node_rc] at hlt
      have := ih (repair_node (sql_exec_node o (sql_gen_node o s)))
        (by rw [repair_node_rc, sql_exec_node_rc, sql_gen_node_rc]; omega)
      rw [repair_node_rc, sql_exec_node_rc, sql_gen_node_rc] at this
      omega
    · rw [if_neg hc]
      omega



lemma sql_exec_node_error_check (o : Oracles)
    (herr : ∀ q, ∃ e, o.execBackend q = Except.error e) (s : AgentState) :
    sql_check_retry (sql_exec_node o (sql_gen_node o s)) =
      decide (s.repair_count < 2) := by
  obtain ⟨e, he⟩ := sql_exec_node_error o herr (sql_gen_node o s)
  rw [sql_check_retry_eq, he, sql_exec_node_rc, sql_gen_node_rc]
  simp [sqlError_ne_empty e]

lemma sqlPhase_always_error (o : Oracles)
    (herr : ∀ q, ∃ e, o.execBackend q = Except.error e) :
    ∀ fuel s, s.repair_count ≤ 2 → s.repair_count + fuel = 3 →
      (sqlPhase o fuel s).2 = fuel ∧
      (sqlPhase o fuel s).1.repair_count = 2 := by
  intro fuel
  induction fuel with
  | zero =>
    intro s h2 h
    exfalso
    omega
  | succ fuel ih =>
    intro s h2 h
    simp only [sqlPhase]
    by_cases hrc : s.repair_count < 2
    · have hc : sql_check_retry (sql_exec_node o (sql_gen_node o s)) = true := by
        rw [sql_exec_node_error_check o herr, decide_eq_true hrc]
      rw [if_pos hc]
      have hnext := ih (repair_node (sql_exec_node o (sql_gen_node o s)))
        (by rw [repair_node_rc, sql_exec_node_rc, sql_gen_node_rc]; omega)
        (by rw [repair_node_rc, sql_exec_node_rc, sql_gen_node_rc]; omega)
      exact ⟨by rw [hnext.1], hnext.2⟩
    · have hrc2 : s.repair_count = 2 := by omega
      have hfuel : fuel = 0 := by omega
      have hc : sql_check_retry (sql_exec_node o (sql_gen_node o s)) = false := by
        rw [sql_exec_node_error_check o herr, hrc2]
        simp
      rw [if_neg (by rw [hc]; simp)]
      rw [sql_exec_node_rc, sql_gen_node_rc]
      omega

lemma synthesizer_node_rc (o : Oracles) (s : AgentState) :
    (synthesizer_node o s).repair_count = s.repair_count := rfl

lemma retrieval_node_rc (o : Oracles) (s : AgentState) :
    (retrieval_node o s).repair_count = s.repair_count := rfl

lemma router_node_rc (o : Oracles) (s : AgentState) :
    (router_node o s).repair_count = s.repair_count := rfl

lemma runGraph_repair_le (o : Oracles) (s : AgentState) (h : s.repair_count ≤ 2) :
    (runGraph o s).1.repair_count ≤ 2 := by
  simp only [runGraph]
  split
  · rw [synthesizer_node_rc]
    exact sqlPhase_repair_le o 3 _ (by rw [router_node_rc]; exact h)
  · split
    · rw [synthesizer_node_rc]
      exact sqlPhase_repair_le o 3 _
        (by rw [retrieval_node_rc, router_node_rc]; exact h)
    · rw [synthesizer_node_rc, retrieval_node_rc, router_node_rc]
      exact h

lemma runGraph_attempts_le (o : Oracles) (s : AgentState) (h : s.repair_count ≤ 2) :
    (runGraph o s).2 + s.repair_count ≤ 3 := by
  simp only [runGraph]
  split
  · have := sqlPhase_attempts_le o 3 (router_node o s) (by rw [router_node_rc]; exact h)
    rw [router_node_rc] at this
    exact this
  · split
    · have := sqlPhase_attempts_le o 3 (retrieval_node o (router_node o s))
        (by rw [retrieval_node_rc, router_node_rc]; exact h)
      rw [retrieval_node_rc, router_node_rc] at this
      exact this
    · omega



lemma driverLoop_repair_le (invoke : AgentState → Option (AgentState × Nat))
    (question format_hint : String) :
    ∀ fuel v, v.repair_count ≤ 2 →
      (driverLoop invoke question format_hint fuel v).1.repair_count ≤ 2 := by
  intro fuel
  induction fuel with
  | zero => intro v h; exact h
  | succ fuel ih =>
    intro v h
    simp only [driverLoop]
    split
    · split
      · rename_i hrc
        exact ih _ (by show v.repair_count + 1 ≤ 2; omega)
      · exact h
    · split
      · split
        · rename_i hrc
          exact ih _ (by show v.repair_count + 1 ≤ 2; omega)
        · exact h
      · split
        · exact h
        · split
          · rename_i hretry
            obtain ⟨hrc, -⟩ := hretry
            exact ih _ (by show v.repair_count + 1 ≤ 2; omega)
          · exact h

/-- Claim C1 amended: within a single workflow invocation the repair
counter never exceeds 2 and the generate/execute attempts are bounded
by 3 minus the entry repair count; with an always-erroring executor on
the sql route and a fresh counter, one invocation performs exactly 3
attempts (2 repair cycles) and reaches synthesis with repair_count 2;
the driver loop also keeps its repair counter at most 2.  (End to end
the driver re-invokes the workflow, so total attempts can reach 6; see
the counterexample.) -/
theorem c1_repair_budget :
    (∀ o s, s.repair_count ≤ 2 →
      (runGraph o s).1.repair_count ≤ 2 ∧ (runGraph o s).2 + s.repair_count ≤ 3) ∧
    (∀ o s, (∀ q, ∃ e, o.execBackend q = Except.error e) →
      s.repair_count = 0 →
      route_decision (router_node o s).classification = "sql" →
      (runGraph o s).2 = 3 ∧ (runGraph o s).1.repair_count = 2) ∧
    (∀ invoke question format_hint,
      (driverLoop invoke question format_hint 3 initVars).1.repair_count ≤ 2) := by
  refine ⟨?_, ?_, ?_⟩
  · intro o s h
    exact ⟨runGraph_repair_le o s h, runGraph_attempts_le o s h⟩
  · intro o s herr h0 hroute
    have h3 := sqlPhase_always_error o herr 3 (router_node o s)
      (by rw [router_node_rc]; omega) (by rw [router_node_rc]; omega)
    simp only [runGraph]
    rw [if_pos hroute]
    exact ⟨h3.1, by rw [synthesizer_node_rc]; exact h3.2⟩
  · intro invoke question format_hint
    exact driverLoop_repair_le invoke question format_hint 3 initVars (by simp [initVars])

def oAlwaysErr : Oracles :=
  { route := fun _ => "sql",
    gen := fun _ _ _ => "SELECT 1",
    execBackend := fun _ => .error "boom",
    synth := fun _ _ _ _ _ =>
      { final_answer := .none, explanation := "", citations := .vList [] },
    retrieve := fun _ => [],
    dbSchema := "" }

/-- Claim C1 witness: a concrete always-erroring executor makes one
workflow invocation perform exactly 3 attempts and end at
repair_count 2. -/
theorem c1_repair_budget_witness :
    (runGraph oAlwaysErr (initState "q" "int" initVars)).2 = 3 ∧
    (runGraph oAlwaysErr (initState "q" "int" initVars)).1.repair_count = 2 :=
  c1_repair_budget.2.1 oAlwaysErr (initState "q" "int" initVars)
    (fun _ => ⟨"boom", rfl⟩) rfl rfl

def invAlwaysErr : AgentState → Option (AgentState × Nat) :=
  fun st => some (runGraph oAlwaysErr st)

/-- Claim C1 counterexample: end to end, with an always-erroring
executor, the driver re-invokes the workflow (re-feeding its own
repair counter), and the total number of generate/execute attempts for
the question is 6, refuting the claimed bound of 3. -/
theorem c1_end_to_end_counterexample :
    (processQuestion invAlwaysErr "q1" "q" "int").2.2 = 6 ∧
    ¬ ((processQuestion invAlwaysErr "q1" "q" "int").2.2 ≤ 3) := by
  refine ⟨rfl, ?_⟩
  intro h
  rw [show (processQuestion invAlwaysErr "q1" "q" "int").2.2 = 6 from rfl] at h
  omega

def invRaise : AgentState → Option (AgentState × Nat) := fun _ => Option.none

/-- Claim C2: when every workflow invocation raises, the driver still
emits exactly one record with empty citations and empty SQL and never
propagates the exception — but the record carries confidence 0.5 (not
the claimed 0.0) and an empty explanation (not a non-empty error
description), because the driver locals sql_error = None and
is_valid = false left over from initialization feed the scorer. -/
theorem c2_exception_containment :
    (processQuestion invRaise "q1" "What is the return policy?" "int").1.confidence = 1 / 2 ∧
    (processQuestion invRaise "q1" "What is the return policy?" "int").1.explanation = "" ∧
    (processQuestion invRaise "q1" "What is the return policy?" "int").1.citations = [] ∧
    (processQuestion invRaise "q1" "What is the return policy?" "int").1.sql = "" ∧
    (processQuestion invRaise "q1" "What is the return policy?" "int").2.1 = 3 ∧
    (runBatch invRaise [("q1", "What is the return policy?", "int")]).length = 1 :=
  ⟨rfl, rfl, rfl, rfl, rfl, rfl⟩



lemma driverLoop_mismatch_invocations
    (invoke : AgentState → Option (AgentState × Nat)) (question format_hint : String)
    (h : ∀ st, ∃ fs att val, invoke st = some (fs, att) ∧
      fs.sql_error = Option.none ∧
      normalize_answer fs.final_answer format_hint = some (val, false)) :
    ∀ fuel v, v.repair_count ≤ 2 → 3 - v.repair_count ≤ fuel →
      (driverLoop invoke question format_hint fuel v).2.1 = 3 - v.repair_count := by
  intro fuel
  induction fuel with
  | zero =>
    intro v h2 hf
    exfalso
    omega
  | succ fuel ih =>
    intro v h2 hf
    obtain ⟨fs, att, val, hinv, herr, hnorm⟩ := h (initState question format_hint v)
    simp only [driverLoop]
    split
    · rename_i heq
      rw [hinv] at heq
      exact Option.noConfusion heq
    · rename_i fs2 att2 heq
      rw [hinv] at heq
      injection heq with heq2
      injection heq2 with hfs hatt
      subst hfs
      subst hatt
      split
      · rename_i heq3
        rw [hnorm] at heq3
        exact Option.noConfusion heq3
      · rename_i fa valid heq3
        rw [hnorm] at heq3
        injection heq3 with heq4
        injection heq4 with hfa hvalid
        subst hfa
        subst hvalid
        split
        · rename_i hcond
          exact absurd hcond.1 (by simp)
        · split
          · rename_i hretry
            obtain ⟨hrc, -⟩ := hretry
            have hihres := ih
              { final_answer := val, sql_query := pyStrip fs.sql_query,
                citations := sanitize_citations fs.citations (pyStrip fs.sql_query),
                explanation := truncate_explanation fs.explanation,
                sql_error := fs.sql_error, is_valid := false,
                repair_count := v.repair_count + 1 }
              (by show v.repair_count + 1 ≤ 2; omega)
              (by show 3 - (v.repair_count + 1) ≤ fuel; omega)
            have hrc2 : (3 : Nat) - (v.repair_count + 1) + 1 = 3 - v.repair_count := by
              omega
            calc (driverLoop invoke question format_hint fuel _).2.1 + 1
                = 3 - (v.repair_count + 1) + 1 := by rw [hihres]
              _ = 3 - v.repair_count := hrc2
          · rename_i hretry
            have hrc2 : ¬ v.repair_count < 2 := by
              intro hlt
              exact hretry ⟨hlt, Or.inr rfl⟩
            have : v.repair_count = 2 := by omega
            rw [this]



/-- Claim C10: when every pass completes without execution error but
with an invalid normalized answer, the driver re-runs the entire
pipeline, performing exactly 3 workflow invocations (the initial pass
plus 2 format-mismatch retries). -/
theorem c10_format_mismatch_retries
    (invoke : AgentState → Option (AgentState × Nat)) (question format_hint : String)
    (h : ∀ st, ∃ fs att val, invoke st = some (fs, att) ∧
      fs.sql_error = Option.none ∧
      normalize_answer fs.final_answer format_hint = some (val, false)) :
    (driverLoop invoke question format_hint 3 initVars).2.1 = 3 :=
  driverLoop_mismatch_invocations invoke question format_hint h 3 initVars
    (by simp [initVars]) (by simp [initVars])

def invMismatch : AgentState → Option (AgentState × Nat) :=
  fun _ => some ({ initState "q" "int" initVars with
    final_answer := .vStr "abc", sql_error := Option.none }, 0)

/-- Claim C10 witness: a concrete invocation whose answer never
matches the int hint drives exactly 3 passes. -/
theorem c10_format_mismatch_retries_witness :
    (driverLoop invMismatch "q" "int" 3 initVars).2.1 = 3 :=
  c10_format_mismatch_retries invMismatch "q" "int"
    (fun _ => ⟨{ initState "q" "int" initVars with
      final_answer := .vStr "abc", sql_error := Option.none }, 0, .vInt 0,
      rfl, rfl, rfl⟩)


/-- Claim C5 witness: a concrete citation list evaluates to a
duplicate-free output whose element passes validation. -/
theorem c5_sanitize_sorted_dedup_union_witness :
    (sanitize_citations (.vList [.vStr "doc::chunk1"]) "").Nodup ∧
    ("doc::chunk1" ∈ sanitize_citations (.vList [.vStr "doc::chunk1"]) "" ↔
      "doc::chunk1" ∈ extract_table_names "" ∨
      "doc::chunk1" ∈ valid_raw_citations (.vList [.vStr "doc::chunk1"])) ∧
    ("doc::chunk1" ∈ extract_table_names "" ∨
      is_valid_citation "doc::chunk1" = true) := by
  have hx : "doc::chunk1" ∈ sanitize_citations (.vList [.vStr "doc::chunk1"]) "" := by
    rw [show sanitize_citations (.vList [.vStr "doc::chunk1"]) "" =
      ["doc::chunk1"] from rfl]
    exact List.mem_singleton.mpr rfl
  exact ⟨(c5_sanitize_sorted_dedup_union (.vList [.vStr "doc::chunk1"]) "").2.1,
    (c5_sanitize_sorted_dedup_union (.vList [.vStr "doc::chunk1"]) "").2.2.1
      "doc::chunk1",
    (c5_sanitize_sorted_dedup_union (.vList [.vStr "doc::chunk1"]) "").2.2.2.1
      "doc::chunk1" hx⟩

/-- Claim C6 witness: concrete labels of each kind route to hybrid,
sql and rag respectively. -/
theorem c6_router_total_witness :
    route_decision "hybrid sql" = "hybrid" ∧
    route_decision "use sql" = "sql" ∧
    route_decision "chatter" = "rag" :=
  ⟨((c6_router_total oC9 sC9).2 "hybrid sql").trans rfl,
   ((c6_router_total oC9 sC9).2 "use sql").trans rfl,
   ((c6_router_total oC9 sC9).2 "chatter").trans rfl⟩

/-- Claim C8 witness: a concrete pair of states differing only in the
error channel generate the same query. -/
theorem c8_generation_independent_of_error_witness :
    (sql_gen_node oC9 { sC9 with sql_error := some "SQL Error: boom" }).sql_query =
      (sql_gen_node oC9 { sC9 with sql_error := Option.none }).sql_query :=
  (c8_generation_independent_of_error oC9 sC9 (some "SQL Error: boom")
    Option.none).2.2.1


end RetailCopilot
